import Mathlib

/-
  Verification development for the storybook-mcp-api server.

  The server module (`createToolHandlers` and `createApp`) is embedded
  shallowly: the story inventory fetched from `index.json` is a value of type
  `Except String (Option Entries)` (an `Except.error` models a thrown fetch
  error, `Except.ok none` models a non-ok HTTP response), the file system is an
  association list from absolute paths to file contents, and the functions of
  the `parsers` module (which is not part of the sources here, only its
  callers) are abstract parameters collected in a `Parsers` record, except
  where a claim is about their own behaviour, in which case a definition
  modelled from the spec is used and marked as such.
-/

namespace StorybookMcp

/-! ## String utilities (list-of-characters based, kernel evaluable) -/

/-- `seqPrefixOf n l` decides whether the character list `n` is a prefix of `l`. -/
def seqPrefixOf : List Char → List Char → Bool
  | [], _ => true
  | _ :: _, [] => false
  | a :: as, b :: bs => a = b && seqPrefixOf as bs

/-- `containsSeq n l` decides whether `n` occurs as a contiguous subsequence of `l`.
Used to model the JavaScript `String.prototype.includes` and regex literal search. -/
def containsSeq (needle : List Char) : List Char → Bool
  | [] => needle.isEmpty
  | l@(_ :: rest) => seqPrefixOf needle l || containsSeq needle rest

/-- Model of `hay.includes(needle)` from JavaScript. -/
def strContains (needle hay : String) : Bool := containsSeq needle.data hay.data

/-- Model of `s.startsWith(pre)` from JavaScript. -/
def strStartsWith (s pre : String) : Bool := seqPrefixOf pre.data s.data

/-- Model of `s.endsWith(suf)` from JavaScript. -/
def strEndsWith (s suf : String) : Bool := seqPrefixOf suf.data.reverse s.data.reverse

/-- Drop the first `n` characters of a string. -/
def strDrop (s : String) (n : Nat) : String := String.mk (s.data.drop n)

/-- Lookup in an association list keyed by strings; models both
`data.entries?.[storyId]` (object property lookup) and the file system
(`fs.existsSync` / `fs.readFileSync`). -/
def lookupStr {α : Type} : List (String × α) → String → Option α
  | [], _ => none
  | (k, v) :: rest, key => if k = key then some v else lookupStr rest key

/-- JavaScript `a || b` on an optional string: `undefined` and the empty
string (both falsy) fall through to the default. -/
def jsOrString (o : Option String) (dflt : String) : String :=
  match o with
  | some s => if s = "" then dflt else s
  | none => dflt

theorem strData_append (s t : String) : (s ++ t).data = s.data ++ t.data := by
  cases s; cases t; rfl

theorem strAppend_assoc (a b c : String) : a ++ b ++ c = a ++ (b ++ c) := by
  cases a with
  | mk la =>
    cases b with
    | mk lb =>
      cases c with
      | mk lc => exact congrArg String.mk (List.append_assoc la lb lc)

theorem strAppend_empty (s : String) : s ++ "" = s := by
  cases s with
  | mk data => exact congrArg String.mk (List.append_nil data)

/-! ## Path handling, as used by the server module

`path.join(projectDir, cleanPath)` and `path.resolve(storyDir, spec)` are
modelled for the plain case exercised by the server: an absolute first
argument and a relative second argument made of normal segments
(`.` and `..` segments are resolved; no trailing separators). -/

/-- Split a character list at `/` separators. -/
def splitSegs : List Char → List Char → List String
  | [], cur => [String.mk cur.reverse]
  | c :: rest, cur =>
    if c = '/' then String.mk cur.reverse :: splitSegs rest []
    else splitSegs rest (c :: cur)

/-- Split a path string into its `/`-separated segments. -/
def splitOnSlashStr (s : String) : List String := splitSegs s.data []

/-- Resolve `.`, `..` and empty segments, accumulator style. -/
def normSegs : List String → List String → List String
  | [], acc => acc.reverse
  | s :: rest, acc =>
    if s = "" ∨ s = "." then normSegs rest acc
    else if s = ".." then normSegs rest acc.tail
    else normSegs rest (s :: acc)

/-- Join segments with `/`. -/
def joinWithSlash : List String → String
  | [] => ""
  | [s] => s
  | s :: rest => s ++ "/" ++ joinWithSlash rest

/-- Model of Node `path.join(a, b)` for an absolute `a` and relative `b`
without redundant separators, the shape produced by the server. -/
def pathJoin (a b : String) : String := a ++ "/" ++ b

/-- Model of Node `path.dirname` for paths that contain a separator. -/
def dirname (p : String) : String :=
  match splitOnSlashStr p with
  | [] => "."
  | [_] => "."
  | segs => joinWithSlash segs.dropLast

/-- Model of Node `path.resolve(dir, spec)` for an absolute `dir`. -/
def pathResolve (dir spec : String) : String :=
  let full := if strStartsWith spec "/" then spec else dir ++ "/" ++ spec
  "/" ++ joinWithSlash (normSegs (splitOnSlashStr full) [])

/-- `entry.importPath.replace(/^\.\//, '')` from the server: strip one
leading `./` occurrence. -/
def stripDotSlash (s : String) : String :=
  if strStartsWith s "./" then strDrop s 2 else s

/-- The story file location computed by both `getStory` and `getStoryDocs`:
`path.join(projectDir, entry.importPath.replace(/^\.\//, ''))`. -/
def storyFilePathFor (projectDir importPath : String) : String :=
  pathJoin projectDir (stripDotSlash importPath)

/-! ## Data model -/

/-- JSON-like argument value of a story variant. -/
inductive ArgValue : Type where
  | str (s : String)
  | num (n : Int)
  | bool (b : Bool)
  | raw (code : String)
deriving DecidableEq, Repr

/-- One named story variant: its argument mapping. -/
structure StoryVariant where
  args : List (String × ArgValue)
deriving DecidableEq, Repr

/-- One declared component property (name, optional type annotation,
optional default), per the data model of the parsers module. -/
structure PropertyDoc where
  name : String
  typeAnn : Option String := none
  defaultVal : Option String := none
deriving DecidableEq, Repr

/-- Result of `extractComponentDocs`: all fields optional. -/
structure ComponentDoc where
  selector : Option String := none
  template : Option String := none
  componentCode : Option String := none
  properties : Option (List PropertyDoc) := none
  description : Option String := none
deriving DecidableEq, Repr

/-- Result of `extractStoryExamples`: imports, the shared meta declaration,
and the variant mapping in declaration order. -/
structure StoryFileDoc where
  imports : List String
  meta : Option String := none
  stories : List (String × StoryVariant)
deriving DecidableEq, Repr

/-- Result of `parseStoryFile`. -/
structure ParsedStory where
  component : Option String := none
  args : Option (List (String × ArgValue)) := none
  argTypes : Option (List (String × String)) := none
  componentDocs : Option ComponentDoc := none
deriving DecidableEq, Repr

/-- One entry of the external story inventory (`index.json`). -/
structure StoryIndexEntry where
  id : String
  name : String
  title : String
  kind : Option String := none
  importPath : Option String := none
  tags : Option (List String) := none
  type : String
deriving DecidableEq, Repr

/-- The abstract interface of the parsers module (`./parsers`), which is
required by the server but whose source is not part of this repository
snapshot; the pipeline is verified for every behaviour of these functions. -/
structure Parsers where
  extractComponentDocs : String → Option ComponentDoc
  extractStoryExamples : String → Option StoryFileDoc
  parseStoryFile : String → String → String → Option ParsedStory
  generateUsageExample : String → List (String × ArgValue) → String → String → String

/-- The file system visible to the server: absolute path to contents.
`fs.existsSync p` is `(lookupStr fileSys p).isSome` and `fs.readFileSync p`
is the looked-up contents. -/
abbrev FileSys := List (String × String)

/-- Result of a tool handler: `{ success: true, ...value }` or
`{ success: false, error: msg }`. -/
inductive ToolResult (α : Type) : Type where
  | ok (value : α)
  | err (msg : String)
deriving DecidableEq, Repr

/-- The try/catch wrapper around each handler body: a thrown error becomes
`{ success: false, error: error.message }`. -/
def catchExcept {α : Type} : Except String (ToolResult α) → ToolResult α
  | Except.ok r => r
  | Except.error m => ToolResult.err m

/-- The fetched inventory: `Except.error` models a thrown fetch error,
`Except.ok none` a non-ok response, `Except.ok (some entries)` the parsed
`data.entries` object as an association list in property order. -/
abbrev FetchResult := Except String (Option (List (String × StoryIndexEntry)))

/-! ## The two inline regular expressions of `getStoryDocs`

`content.match(/component:\s*(\w+)/)` and
``content.match(new RegExp(`import\s*\{[^}]*NAME[^}]*\}\s*from\s*['"]([^'"]+)['"]`))``
are embedded as deterministic scanners with the same leftmost-match
semantics. `\s` is modelled over its ASCII members, `\w` over
`[A-Za-z0-9_]`. -/

/-- ASCII members of the regex class `\w`. -/
def isWordChar (c : Char) : Bool := c.isAlpha || c.isDigit || c = '_'

/-- ASCII members of the regex class `\s`. -/
def isSpaceChar (c : Char) : Bool :=
  c = ' ' || c = '\t' || c = '\n' || c = '\r' || c = '\x0b' || c = '\x0c'

def lbrace : Char := Char.ofNat 123

def rbrace : Char := Char.ofNat 125

def squote : Char := Char.ofNat 39

def dquote : Char := Char.ofNat 34

def quoteChar (c : Char) : Bool := c = squote || c = dquote

/-- Attempt to match `component:\s*(\w+)` anchored at the head of `cs`,
returning the capture group. -/
def matchComponentAt (cs : List Char) : Option String :=
  if seqPrefixOf ("component:".data) cs then
    let rest := (cs.drop 10).dropWhile isSpaceChar
    let w := rest.takeWhile isWordChar
    if w.isEmpty then none else some (String.mk w)
  else none

/-- Leftmost match of `component:\s*(\w+)` over a character list. -/
def scanComponent : List Char → Option String
  | [] => none
  | c :: cs =>
    match matchComponentAt (c :: cs) with
    | some w => some w
    | none => scanComponent cs

/-- `content.match(/component:\s*(\w+)/)`: the captured component name of
the story file's `component:` declaration, if any. -/
def matchComponentName (content : String) : Option String :=
  scanComponent content.data

/-- Attempt to match the import regex anchored at the head of `cs`,
returning the captured module specifier. The body between the braces must
contain the component name, the specifier between the quotes is the maximal
nonempty run of non-quote characters and must be closed by a quote. -/
def matchImportAt (cname : List Char) (cs : List Char) : Option String :=
  if seqPrefixOf ("import".data) cs then
    match (cs.drop 6).dropWhile isSpaceChar with
    | [] => none
    | b :: r2 =>
      if b = lbrace then
        let inner := r2.takeWhile (fun c => c != rbrace)
        match r2.dropWhile (fun c => c != rbrace) with
        | [] => none
        | _ :: r3 =>
          if containsSeq cname inner then
            let r4 := r3.dropWhile isSpaceChar
            if seqPrefixOf ("from".data) r4 then
              match (r4.drop 4).dropWhile isSpaceChar with
              | [] => none
              | q :: r6 =>
                if quoteChar q then
                  let spec := r6.takeWhile (fun c => !(quoteChar c))
                  if spec.isEmpty then none
                  else
                    match r6.dropWhile (fun c => !(quoteChar c)) with
                    | [] => none
                    | _ :: _ => some (String.mk spec)
                else none
            else none
          else none
      else none
  else none

/-- Leftmost match of the import regex over a character list. -/
def scanImport (cname : List Char) : List Char → Option String
  | [] => none
  | c :: cs =>
    match matchImportAt cname (c :: cs) with
    | some w => some w
    | none => scanImport cname cs

/-- The import regex of `getStoryDocs`, specialised to the component name
captured before: returns the relative module specifier of the import that
brings the component into scope. -/
def matchImportSpec (cname : String) (content : String) : Option String :=
  scanImport cname.data content.data

/-! ## Import resolution: the extension probe of `getStoryDocs` -/

/-- The fixed, ordered extension list of `getStoryDocs`. -/
def extensions : List String := ["", ".ts", ".tsx", ".js", ".jsx", ".vue", ".svelte"]

/-- The ordered candidate files for a component base path. -/
def componentCandidates (base : String) : List String :=
  extensions.map (fun ext => base ++ ext)

/-- `fs.existsSync` over the modelled file system. -/
def existsSync (fileSys : FileSys) (p : String) : Bool :=
  (lookupStr fileSys p).isSome

/-- The extension-probing loop of `getStoryDocs`: the first candidate that
exists, if any (the loop breaks as soon as `fs.existsSync` succeeds). -/
def probeComponentFile (fileSys : FileSys) (base : String) : Option String :=
  (componentCandidates base).find? (existsSync fileSys)

/-! ## The docs object built by `getStoryDocs` -/

/-- The `docs` object assembled by `getStoryDocs`; an `Option` field is
`none` when the corresponding property was never assigned (and is therefore
absent from the serialized JSON). -/
structure DocsResult where
  storyId : String
  title : String
  name : String
  type : String
  framework : String
  component : Option String := none
  selector : Option String := none
  template : Option String := none
  componentCode : Option String := none
  properties : Option (List PropertyDoc) := none
  componentDescription : Option String := none
  imports : Option (List String) := none
  metaCode : Option String := none
  storyExamples : Option (List (String × StoryVariant)) := none
  usageExamples : Option (List (String × String)) := none
  mdxContent : Option String := none
deriving DecidableEq, Repr

/-- The assignments performed when `extractComponentDocs` returned a truthy
value: `docs.selector = componentDocs.selector; ...;
docs.componentDescription = componentDocs.description`. -/
def applyComponentDocs (d : DocsResult) (cd : ComponentDoc) : DocsResult :=
  { d with
    selector := cd.selector
    template := cd.template
    componentCode := cd.componentCode
    properties := cd.properties
    componentDescription := cd.description }

/-- The component-info section of `getStoryDocs`: match the `component:`
declaration, find its import, resolve the base path relative to the story
file's directory, probe the extensions, and on the first existing candidate
run `extractComponentDocs`. -/
def componentPhase (P : Parsers) (fileSys : FileSys) (storyFilePath content : String)
    (d : DocsResult) : DocsResult :=
  match matchComponentName content with
  | none => d
  | some cname =>
    let d1 := { d with component := some cname }
    match matchImportSpec cname content with
    | none => d1
    | some spec =>
      match probeComponentFile fileSys (pathResolve (dirname storyFilePath) spec) with
      | none => d1
      | some fullPath =>
        match P.extractComponentDocs fullPath with
        | none => d1
        | some cd => applyComponentDocs d1 cd

/-- The story-examples section of `getStoryDocs`: run
`extractStoryExamples`, copy its fields, and when `docs.selector` is truthy
(a nonempty string) generate one usage example per story variant. The
selector is unchanged by the copy, so it is read from `d`. -/
def storyPhase (P : Parsers) (framework storyFilePath : String) (d : DocsResult) : DocsResult :=
  match P.extractStoryExamples storyFilePath with
  | none => d
  | some se =>
    let d1 := { d with
      imports := some se.imports
      metaCode := se.meta
      storyExamples := some se.stories }
    match d.selector with
    | none => d1
    | some s =>
      if s = "" then d1
      else
        let usage := se.stories.map (fun v => (v.1, P.generateUsageExample s v.2.args v.1 framework))
        { d1 with usageExamples := some usage }

/-- The `docs` object before any file inspection. -/
def docsBase (storyId : String) (entry : StoryIndexEntry) (framework : String) : DocsResult :=
  { storyId := storyId, title := entry.title, name := entry.name,
    type := entry.type, framework := framework }

/-- The body of the `getStoryDocs` handler (inside its try block). The two
`if` branches of the source test `importPath && !importPath.endsWith('.mdx')`
and `importPath && importPath.endsWith('.mdx')`; under a truthy import path
these are complementary, so the embedding branches on `endsWith` once. -/
def getStoryDocsBody (P : Parsers) (fileSys : FileSys) (projectDir framework : String)
    (fetched : FetchResult) (storyId : String) : Except String (ToolResult DocsResult) :=
  match fetched with
  | Except.error m => Except.error m
  | Except.ok none => Except.ok (ToolResult.err "Storybook is not ready")
  | Except.ok (some entries) =>
    match lookupStr entries storyId with
    | none => Except.ok (ToolResult.err ("Story \"" ++ storyId ++ "\" not found"))
    | some entry =>
      let d0 := docsBase storyId entry framework
      match entry.importPath with
      | none => Except.ok (ToolResult.ok d0)
      | some ip =>
        if ip = "" then Except.ok (ToolResult.ok d0)
        else if strEndsWith ip ".mdx" then
          match lookupStr fileSys (storyFilePathFor projectDir ip) with
          | none => Except.ok (ToolResult.ok d0)
          | some content => Except.ok (ToolResult.ok { d0 with mdxContent := some content })
        else
          match lookupStr fileSys (storyFilePathFor projectDir ip) with
          | none => Except.ok (ToolResult.ok d0)
          | some content =>
            Except.ok (ToolResult.ok
              (storyPhase P framework (storyFilePathFor projectDir ip)
                (componentPhase P fileSys (storyFilePathFor projectDir ip) content d0)))

/-- The `getStoryDocs` tool handler. -/
def getStoryDocs (P : Parsers) (fileSys : FileSys) (projectDir framework : String)
    (fetched : FetchResult) (storyId : String) : ToolResult DocsResult :=
  catchExcept (getStoryDocsBody P fileSys projectDir framework fetched storyId)

/-! ## The `getStory` handler -/

/-- The `story` object assembled by `getStory`. -/
structure StoryDetails where
  id : String
  name : String
  title : String
  kind : String
  importPath : Option String := none
  tags : List String := []
  type : String
  component : Option String := none
  args : Option (List (String × ArgValue)) := none
  argTypes : Option (List (String × String)) := none
  docs : Option ComponentDoc := none
deriving DecidableEq, Repr

/-- The `story` object before `parseStoryFile` augmentation:
`kind: entry.kind || entry.title`, `tags: entry.tags || []`. -/
def storyBase (entry : StoryIndexEntry) : StoryDetails :=
  { id := entry.id, name := entry.name, title := entry.title,
    kind := jsOrString entry.kind entry.title, importPath := entry.importPath,
    tags := entry.tags.getD [], type := entry.type }

/-- The body of the `getStory` handler. `story.args = parsed.args || {}` and
`story.argTypes = parsed.argTypes || {}` replace an absent object by an
empty one; `story.docs` is assigned only when `parsed.componentDocs` is
truthy, which coincides with the optional value itself. -/
def getStoryBody (P : Parsers) (projectDir : String) (fetched : FetchResult)
    (storyId : String) : Except String (ToolResult StoryDetails) :=
  match fetched with
  | Except.error m => Except.error m
  | Except.ok none => Except.ok (ToolResult.err "Storybook is not ready")
  | Except.ok (some entries) =>
    match lookupStr entries storyId with
    | none => Except.ok (ToolResult.err ("Story \"" ++ storyId ++ "\" not found"))
    | some entry =>
      let s0 := storyBase entry
      match entry.importPath with
      | none => Except.ok (ToolResult.ok s0)
      | some ip =>
        if ip = "" then Except.ok (ToolResult.ok s0)
        else
          match P.parseStoryFile (storyFilePathFor projectDir ip) storyId projectDir with
          | none => Except.ok (ToolResult.ok s0)
          | some parsed =>
            Except.ok (ToolResult.ok
              { s0 with
                component := parsed.component
                args := some (parsed.args.getD [])
                argTypes := some (parsed.argTypes.getD [])
                docs := parsed.componentDocs })

/-- The `getStory` tool handler. -/
def getStory (P : Parsers) (projectDir : String) (fetched : FetchResult)
    (storyId : String) : ToolResult StoryDetails :=
  catchExcept (getStoryBody P projectDir fetched storyId)

/-! ## The `listStories` and `getStoriesByKind` handlers -/

/-- One story of the `listStories` response. -/
structure StoryListItem where
  id : String
  name : String
  title : String
  kind : String
  importPath : Option String := none
  tags : List String := []
  type : String
deriving DecidableEq, Repr

/-- The mapping applied to each inventory entry by `listStories`. -/
def entryToItem (e : StoryIndexEntry) : StoryListItem :=
  { id := e.id, name := e.name, title := e.title, kind := jsOrString e.kind e.title,
    importPath := e.importPath, tags := e.tags.getD [], type := e.type }

/-- The success payload of `listStories`: `{ count, stories }`. -/
structure StoriesOk where
  count : Nat
  stories : List StoryListItem
deriving DecidableEq, Repr

/-- The body of the `listStories` handler; the non-ready branch also carries
a `hint` property, which the model folds into the error message position. -/
def listStoriesBody (fetched : FetchResult) (kindArg : Option String) :
    Except String (ToolResult StoriesOk) :=
  match fetched with
  | Except.error m => Except.error m
  | Except.ok none => Except.ok (ToolResult.err "Storybook is not ready. Please wait...")
  | Except.ok (some entries) =>
    let all := entries.map (fun p => entryToItem p.2)
    let stories :=
      match kindArg with
      | none => all
      | some k => if k = "" then all else all.filter (fun s => s.kind = k || s.title = k)
    Except.ok (ToolResult.ok { count := stories.length, stories := stories })

/-- The `listStories` tool handler. -/
def listStories (fetched : FetchResult) (kindArg : Option String) : ToolResult StoriesOk :=
  catchExcept (listStoriesBody fetched kindArg)

/-- One story of the `getStoriesByKind` response. -/
structure KindStoryItem where
  id : String
  name : String
  title : String
  kind : String
  type : String
deriving DecidableEq, Repr

/-- The success payload of `getStoriesByKind`: `{ count, kind, stories }`. -/
structure KindStoriesOk where
  count : Nat
  kind : String
  stories : List KindStoryItem
deriving DecidableEq, Repr

/-- The body of the `getStoriesByKind` handler. -/
def getStoriesByKindBody (fetched : FetchResult) (kind : String) :
    Except String (ToolResult KindStoriesOk) :=
  match fetched with
  | Except.error m => Except.error m
  | Except.ok none => Except.ok (ToolResult.err "Storybook is not ready")
  | Except.ok (some entries) =>
    let stories := ((entries.map Prod.snd).filter
        (fun e => e.kind = some kind || e.title = kind)).map
      (fun e => { id := e.id, name := e.name, title := e.title,
                  kind := jsOrString e.kind e.title, type := e.type : KindStoryItem })
    Except.ok (ToolResult.ok { count := stories.length, kind := kind, stories := stories })

/-- The `getStoriesByKind` tool handler. -/
def getStoriesByKind (fetched : FetchResult) (kind : String) : ToolResult KindStoriesOk :=
  catchExcept (getStoriesByKindBody fetched kind)

/-! ## The REST status mapping of `createApp` -/

/-- The status selection of the `/api/stories/:storyId` and
`/api/docs/:storyId` routes: 200 on success, 404 when the error message
includes `not found`, 503 otherwise. -/
def restStatus {α : Type} : ToolResult α → Nat
  | ToolResult.ok _ => 200
  | ToolResult.err m => if strContains "not found" m then 404 else 503

/-! ## Spec-modelled parsers

The parsers module itself is not part of the sources of this snapshot; the
two definitions below are modelled from the spec and used only for the
claims that are about the parsers' own behaviour. -/

/-- Modelled from the spec: the input of the story example extractor as an
abstract story file (its imports, its single meta declaration, and its
named variants with argument maps, in declaration order). -/
structure StoryFileSrc where
  imports : List String
  meta : Option String := none
  variants : List (String × StoryVariant)
deriving DecidableEq, Repr

/-- Modelled from the spec: `extractStoryExamples` of the missing parsers
module, over an environment of abstract story files. It extracts the
imports, the meta declaration and every named variant preserving order; a
story file with zero named variants yields an empty variant mapping, not an
error. -/
def specExtractStoryExamples (storyFiles : List (String × StoryFileSrc)) (p : String) :
    Option StoryFileDoc :=
  (lookupStr storyFiles p).map
    (fun sf => { imports := sf.imports, meta := sf.meta, stories := sf.variants })

/-- Join strings with single spaces. -/
def joinWithSpace : List String → String
  | [] => ""
  | [s] => s
  | s :: rest => s ++ " " ++ joinWithSpace rest

/-- Modelled from the spec: one attribute of a usage example. String values
are quoted attribute values; non-string JSON-like values use the
framework-appropriate binding syntax (brace interpolation for `react`,
bracket attribute binding otherwise). -/
def renderArgBinding (framework key : String) (v : ArgValue) : String :=
  if framework = "react" then
    match v with
    | ArgValue.str s => key ++ "=\"" ++ s ++ "\""
    | ArgValue.num n => key ++ "=\x7b" ++ toString n ++ "\x7d"
    | ArgValue.bool b => key ++ "=\x7b" ++ (cond b "true" "false") ++ "\x7d"
    | ArgValue.raw code => key ++ "=\x7b" ++ code ++ "\x7d"
  else
    match v with
    | ArgValue.str s => key ++ "=\"" ++ s ++ "\""
    | ArgValue.num n => "[" ++ key ++ "]=\"" ++ toString n ++ "\""
    | ArgValue.bool b => "[" ++ key ++ "]=\"" ++ (cond b "true" "false") ++ "\""
    | ArgValue.raw code => "[" ++ key ++ "]=\"" ++ code ++ "\""

/-- Modelled from the spec: `generateUsageExample` of the missing parsers
module. A pure function of the component identity, the variant's argument
mapping, the variant name and the framework; an empty argument mapping
still produces a valid attribute-free invocation. -/
def generateUsageExample (componentIdentity : String) (args : List (String × ArgValue))
    (variantName : String) (framework : String) : String :=
  let attrText := joinWithSpace (args.map (fun kv => renderArgBinding framework kv.1 kv.2))
  let openTag :=
    if attrText = "" then "<" ++ componentIdentity ++ ">"
    else "<" ++ componentIdentity ++ " " ++ attrText ++ ">"
  "<!-- " ++ variantName ++ " -->\n" ++ openTag ++ "</" ++ componentIdentity ++ ">"

/-! ## Sample data used by the witness theorems -/

def sampleEntry : StoryIndexEntry :=
  { id := "example-button--primary", name := "Primary", title := "Example/Button",
    kind := some "Example/Button", importPath := some "./src/button.stories.ts",
    tags := some ["story"], type := "story" }

def sampleEntries : List (String × StoryIndexEntry) :=
  [("example-button--primary", sampleEntry)]

def sampleStoryContent : String :=
  "import \x7b Button \x7d from \"./button\"\ncomponent: Button\n"

/-- A file system holding only the story file, no component file. -/
def sampleFsNoComp : FileSys := [("/proj/src/button.stories.ts", sampleStoryContent)]

/-- A file system where the `.tsx` and `.js` candidates exist. -/
def sampleFsTsxJs : FileSys := [("/proj/src/button.tsx", "x"), ("/proj/src/button.js", "y")]

def sampleComponentDoc : ComponentDoc :=
  { selector := some "app-button", template := some "<button>label</button>",
    componentCode := some "class ButtonComponent", description := some "A button.",
    properties := some [{ name := "label", typeAnn := some "string" }] }

def sampleVariant : StoryVariant := { args := [("label", ArgValue.str "Click me")] }

def sampleStoryFileDoc : StoryFileDoc :=
  { imports := ["import stuff"], meta := some "const meta = x", stories := [("Primary", sampleVariant)] }

def sampleParsers : Parsers :=
  { extractComponentDocs := fun p => if p = "/proj/src/button.ts" then some sampleComponentDoc else none,
    extractStoryExamples := fun p => if p = "/proj/src/button.stories.ts" then some sampleStoryFileDoc else none,
    parseStoryFile := fun _ _ _ => none,
    generateUsageExample := generateUsageExample }

/-! ## Helper lemmas -/

/-- A successful `find?` returns an element that satisfies the predicate and
is preceded only by elements that falsify it. -/
theorem find_first_spec {α : Type} (p : α → Bool) :
    ∀ (l : List α) (a : α), l.find? p = some a →
      p a = true ∧ ∃ l1 l2, l = l1 ++ a :: l2 ∧ ∀ x ∈ l1, p x = false := by
  intro l
  induction l with
  | nil => intro a h; simp [List.find?] at h
  | cons b t ih =>
    intro a h
    by_cases hb : p b = true
    · rw [List.find?_cons_of_pos _ hb] at h
      obtain rfl : b = a := by injection h
      exact ⟨hb, [], t, rfl, by intro x hx; cases hx⟩
    · have hb' : p b = false := by
        cases hpb : p b
        · rfl
        · exact absurd hpb hb
      rw [List.find?_cons_of_neg _ hb] at h
      obtain ⟨hpa, l1, l2, rfl, hall⟩ := ih a h
      refine ⟨hpa, b :: l1, l2, rfl, ?_⟩
      intro x hx
      cases hx with
      | head => exact hb'
      | tail _ hmem => exact hall x hmem

theorem seqPrefixOf_append (n t : List Char) : seqPrefixOf n (n ++ t) = true := by
  induction n with
  | nil => rfl
  | cons a as ih => simp [seqPrefixOf, ih]

theorem containsSeq_append_left (n l2 : List Char) (h : containsSeq n l2 = true) :
    ∀ l1 : List Char, containsSeq n (l1 ++ l2) = true := by
  intro l1
  induction l1 with
  | nil => simpa using h
  | cons a as ih => simp [containsSeq, ih]

theorem seqPrefixOf_refl (n : List Char) : seqPrefixOf n n = true := by
  induction n with
  | nil => rfl
  | cons a as ih => simp [seqPrefixOf, ih]

theorem containsSeq_self (n : List Char) : containsSeq n n = true := by
  cases n with
  | nil => rfl
  | cons a as => simp [containsSeq, seqPrefixOf_refl]

/-- Every handler error message of the shape `Story "<id>" not found`
contains the substring `not found`. -/
theorem strContains_notFound (storyId : String) :
    strContains "not found" ("Story \"" ++ storyId ++ "\" not found") = true := by
  have hsplit : "Story \"" ++ storyId ++ "\" not found"
      = ("Story \"" ++ storyId ++ "\" ") ++ "not found" := by
    rw [strAppend_assoc, strAppend_assoc]
    rfl
  rw [hsplit]
  unfold strContains
  rw [strData_append]
  exact containsSeq_append_left _ _ (containsSeq_self _) _

/-- `componentPhase` never assigns `usageExamples`. -/
theorem componentPhase_usage (P : Parsers) (fileSys : FileSys) (sfp content : String)
    (d : DocsResult) : (componentPhase P fileSys sfp content d).usageExamples = d.usageExamples := by
  cases hm : matchComponentName content with
  | none => simp [componentPhase, hm]
  | some cname =>
    cases hs : matchImportSpec cname content with
    | none => simp [componentPhase, hm, hs]
    | some spec =>
      cases hp : probeComponentFile fileSys (pathResolve (dirname sfp) spec) with
      | none => simp [componentPhase, hm, hs, hp]
      | some fullPath =>
        cases he : P.extractComponentDocs fullPath with
        | none => simp [componentPhase, hm, hs, hp, he]
        | some cd => simp [componentPhase, hm, hs, hp, he, applyComponentDocs]

/-! ## Claims -/

/-- C1: for every story whose component import is resolved, the pipeline
probes candidate files by appending, in this fixed order, no extension, then
`.ts`, `.tsx`, `.js`, `.jsx`, `.vue`, `.svelte` to the base absolute path,
and extracts component docs from the first candidate that exists; once a
candidate exists, no later extension is consulted, and the probe order is
the only tie-break when several candidates exist. -/
theorem C1_probe_order (fileSys : FileSys) (base p : String)
    (h : probeComponentFile fileSys base = some p) :
    componentCandidates base =
      [base, base ++ ".ts", base ++ ".tsx", base ++ ".js", base ++ ".jsx",
       base ++ ".vue", base ++ ".svelte"] ∧
    existsSync fileSys p = true ∧
    ∃ l1 l2, componentCandidates base = l1 ++ p :: l2 ∧ ∀ q ∈ l1, existsSync fileSys q = false := by
  have hfirst := find_first_spec (existsSync fileSys) (componentCandidates base) p h
  refine ⟨?_, hfirst.1, hfirst.2⟩
  simp [componentCandidates, extensions, strAppend_empty]

theorem C1_probe_order_witness :
    componentCandidates "/proj/src/button" =
      ["/proj/src/button", "/proj/src/button" ++ ".ts", "/proj/src/button" ++ ".tsx",
       "/proj/src/button" ++ ".js", "/proj/src/button" ++ ".jsx",
       "/proj/src/button" ++ ".vue", "/proj/src/button" ++ ".svelte"] ∧
    existsSync sampleFsTsxJs "/proj/src/button.tsx" = true ∧
    ∃ l1 l2, componentCandidates "/proj/src/button" = l1 ++ "/proj/src/button.tsx" :: l2 ∧
      ∀ q ∈ l1, existsSync sampleFsTsxJs q = false :=
  C1_probe_order sampleFsTsxJs "/proj/src/button" "/proj/src/button.tsx" (by decide)

/-- C6: `generateUsageExample` is deterministic: two calls with identical
component identity, argument mapping, variant name and framework return
byte-identical output strings. -/
theorem C6_generate_deterministic (id1 id2 : String) (args1 args2 : List (String × ArgValue))
    (n1 n2 f1 f2 : String) (hid : id1 = id2) (ha : args1 = args2) (hn : n1 = n2) (hf : f1 = f2) :
    generateUsageExample id1 args1 n1 f1 = generateUsageExample id2 args2 n2 f2 := by
  rw [hid, ha, hn, hf]

theorem C6_generate_deterministic_witness :
    generateUsageExample "app-button" [("label", ArgValue.str "Click me")] "Primary" "angular"
      = generateUsageExample "app-button" [("label", ArgValue.str "Click me")] "Primary" "angular" :=
  C6_generate_deterministic "app-button" "app-button"
    [("label", ArgValue.str "Click me")] [("label", ArgValue.str "Click me")]
    "Primary" "Primary" "angular" "angular" rfl rfl rfl rfl

/-- C8: for every story entry with an import path, the pipeline computes the
story file's location by joining the project-relative import path with the
project root, stripping any leading `./`; for example import path
`./src/button.stories.ts` under project root `projectDir` yields
`projectDir ++ "/src/button.stories.ts"`. -/
theorem C8_story_path (projectDir ip : String) :
    (strStartsWith ip "./" = true →
      storyFilePathFor projectDir ip = projectDir ++ "/" ++ strDrop ip 2) ∧
    (strStartsWith ip "./" = false →
      storyFilePathFor projectDir ip = projectDir ++ "/" ++ ip) ∧
    storyFilePathFor projectDir "./src/button.stories.ts"
      = projectDir ++ "/src/button.stories.ts" := by
  refine ⟨?_, ?_, ?_⟩
  · intro h
    simp [storyFilePathFor, stripDotSlash, pathJoin, h]
  · intro h
    simp [storyFilePathFor, stripDotSlash, pathJoin, h]
  · have h1 : storyFilePathFor projectDir "./src/button.stories.ts"
        = projectDir ++ "/" ++ "src/button.stories.ts" := by
      simp [storyFilePathFor, stripDotSlash, pathJoin, strDrop, strStartsWith, seqPrefixOf]
    rw [h1, strAppend_assoc]
    exact congrArg (fun t => projectDir ++ t) (by decide)

/-- C5: for every story identifier absent from the inventory mapping,
`getStory` and `getStoryDocs` return an explicit not-found result (success
false with a not-found error message) rather than throwing, and the REST
layer maps this result to 404, distinguishable from other failures, which
map to 503. -/
theorem C5_not_found (P : Parsers) (fileSys : FileSys) (projectDir framework storyId : String)
    (entries : List (String × StoryIndexEntry))
    (hlook : lookupStr entries storyId = none) :
    getStory P projectDir (Except.ok (some entries)) storyId
      = ToolResult.err ("Story \"" ++ storyId ++ "\" not found") ∧
    getStoryDocs P fileSys projectDir framework (Except.ok (some entries)) storyId
      = ToolResult.err ("Story \"" ++ storyId ++ "\" not found") ∧
    restStatus (getStory P projectDir (Except.ok (some entries)) storyId) = 404 ∧
    restStatus (getStoryDocs P fileSys projectDir framework (Except.ok (some entries)) storyId) = 404 ∧
    restStatus (ToolResult.err "Storybook is not ready" : ToolResult DocsResult) = 503 := by
  have hs : getStory P projectDir (Except.ok (some entries)) storyId
      = ToolResult.err ("Story \"" ++ storyId ++ "\" not found") := by
    simp [getStory, getStoryBody, catchExcept, hlook]
  have hd : getStoryDocs P fileSys projectDir framework (Except.ok (some entries)) storyId
      = ToolResult.err ("Story \"" ++ storyId ++ "\" not found") := by
    simp [getStoryDocs, getStoryDocsBody, catchExcept, hlook]
  refine ⟨hs, hd, ?_, ?_, by decide⟩
  · rw [hs]; simp [restStatus, strContains_notFound]
  · rw [hd]; simp [restStatus, strContains_notFound]

theorem C5_not_found_witness :
    getStory sampleParsers "/proj" (Except.ok (some [])) "missing-story"
      = ToolResult.err ("Story \"" ++ "missing-story" ++ "\" not found") ∧
    getStoryDocs sampleParsers sampleFsNoComp "/proj" "angular" (Except.ok (some [])) "missing-story"
      = ToolResult.err ("Story \"" ++ "missing-story" ++ "\" not found") ∧
    restStatus (getStory sampleParsers "/proj" (Except.ok (some [])) "missing-story") = 404 ∧
    restStatus (getStoryDocs sampleParsers sampleFsNoComp "/proj" "angular"
      (Except.ok (some [])) "missing-story") = 404 ∧
    restStatus (ToolResult.err "Storybook is not ready" : ToolResult DocsResult) = 503 :=
  C5_not_found sampleParsers sampleFsNoComp "/proj" "angular" "missing-story" [] rfl

/-- C7: the documentation output maps the extractor fields onto the
documented field names: `selector`, `template`, `componentCode` and
`properties` are copied under the same names, `componentDescription` is
taken from the extractor's `description` field, `metaCode` from its `meta`
field, `storyExamples` from its `stories` field, and `imports` is copied
under the same name. -/
theorem C7_field_mapping (P : Parsers) (framework sfp : String) (d : DocsResult)
    (cd : ComponentDoc) :
    (applyComponentDocs d cd).selector = cd.selector ∧
    (applyComponentDocs d cd).template = cd.template ∧
    (applyComponentDocs d cd).componentCode = cd.componentCode ∧
    (applyComponentDocs d cd).properties = cd.properties ∧
    (applyComponentDocs d cd).componentDescription = cd.description ∧
    ∀ se, P.extractStoryExamples sfp = some se →
      (storyPhase P framework sfp d).imports = some se.imports ∧
      (storyPhase P framework sfp d).metaCode = se.meta ∧
      (storyPhase P framework sfp d).storyExamples = some se.stories := by
  refine ⟨rfl, rfl, rfl, rfl, rfl, ?_⟩
  intro se hse
  cases hsel : d.selector with
  | none => simp [storyPhase, hse, hsel]
  | some s =>
    by_cases h0 : s = ""
    · simp [storyPhase, hse, hsel, h0]
    · simp [storyPhase, hse, hsel, h0]

theorem C7_field_mapping_witness :
    (applyComponentDocs (docsBase "example-button--primary" sampleEntry "angular") sampleComponentDoc).selector
      = sampleComponentDoc.selector ∧
    (applyComponentDocs (docsBase "example-button--primary" sampleEntry "angular") sampleComponentDoc).template
      = sampleComponentDoc.template ∧
    (applyComponentDocs (docsBase "example-button--primary" sampleEntry "angular") sampleComponentDoc).componentCode
      = sampleComponentDoc.componentCode ∧
    (applyComponentDocs (docsBase "example-button--primary" sampleEntry "angular") sampleComponentDoc).properties
      = sampleComponentDoc.properties ∧
    (applyComponentDocs (docsBase "example-button--primary" sampleEntry "angular") sampleComponentDoc).componentDescription
      = sampleComponentDoc.description ∧
    ∀ se, sampleParsers.extractStoryExamples "/proj/src/button.stories.ts" = some se →
      (storyPhase sampleParsers "angular" "/proj/src/button.stories.ts"
        (docsBase "example-button--primary" sampleEntry "angular")).imports = some se.imports ∧
      (storyPhase sampleParsers "angular" "/proj/src/button.stories.ts"
        (docsBase "example-button--primary" sampleEntry "angular")).metaCode = se.meta ∧
      (storyPhase sampleParsers "angular" "/proj/src/button.stories.ts"
        (docsBase "example-button--primary" sampleEntry "angular")).storyExamples = some se.stories :=
  C7_field_mapping sampleParsers "angular" "/proj/src/button.stories.ts"
    (docsBase "example-button--primary" sampleEntry "angular") sampleComponentDoc

theorem C8_story_path_witness :
    (strStartsWith "./src/button.stories.ts" "./" = true →
      storyFilePathFor "/proj" "./src/button.stories.ts"
        = "/proj" ++ "/" ++ strDrop "./src/button.stories.ts" 2) ∧
    (strStartsWith "./src/button.stories.ts" "./" = false →
      storyFilePathFor "/proj" "./src/button.stories.ts"
        = "/proj" ++ "/" ++ "./src/button.stories.ts") ∧
    storyFilePathFor "/proj" "./src/button.stories.ts" = "/proj" ++ "/src/button.stories.ts" :=
  C8_story_path "/proj" "./src/button.stories.ts"

/-- C2: when the component import specifier resolves to no existing file
under any probed extension, the returned docs carry none of the
`ComponentDoc` fields (`selector`, `template`, `componentCode`,
`properties`, `componentDescription`), while story-file extraction still
runs and its results are still included, and the request succeeds. -/
theorem C2_component_unresolved (P : Parsers) (fileSys : FileSys)
    (projectDir framework storyId ip content cname spec : String)
    (entries : List (String × StoryIndexEntry)) (entry : StoryIndexEntry)
    (hlook : lookupStr entries storyId = some entry)
    (hip : entry.importPath = some ip)
    (hne : ip ≠ "")
    (hmdx : strEndsWith ip ".mdx" = false)
    (hfile : lookupStr fileSys (storyFilePathFor projectDir ip) = some content)
    (hcomp : matchComponentName content = some cname)
    (hspec : matchImportSpec cname content = some spec)
    (hprobe : probeComponentFile fileSys
      (pathResolve (dirname (storyFilePathFor projectDir ip)) spec) = none) :
    ∃ d, getStoryDocs P fileSys projectDir framework (Except.ok (some entries)) storyId
        = ToolResult.ok d ∧
      d.selector = none ∧ d.template = none ∧ d.componentCode = none ∧
      d.properties = none ∧ d.componentDescription = none ∧
      ∀ se, P.extractStoryExamples (storyFilePathFor projectDir ip) = some se →
        d.imports = some se.imports ∧ d.metaCode = se.meta ∧
        d.storyExamples = some se.stories := by
  have hcp : componentPhase P fileSys (storyFilePathFor projectDir ip) content
      (docsBase storyId entry framework)
      = { docsBase storyId entry framework with component := some cname } := by
    simp [componentPhase, hcomp, hspec, hprobe]
  have hres : getStoryDocs P fileSys projectDir framework (Except.ok (some entries)) storyId
      = ToolResult.ok (storyPhase P framework (storyFilePathFor projectDir ip)
          (componentPhase P fileSys (storyFilePathFor projectDir ip) content
            (docsBase storyId entry framework))) := by
    simp [getStoryDocs, getStoryDocsBody, catchExcept, hlook, hip, hne, hmdx, hfile]
  refine ⟨_, hres, ?_⟩
  cases hE : P.extractStoryExamples (storyFilePathFor projectDir ip) with
  | none =>
    have hsp : storyPhase P framework (storyFilePathFor projectDir ip)
        (componentPhase P fileSys (storyFilePathFor projectDir ip) content
          (docsBase storyId entry framework))
        = { docsBase storyId entry framework with component := some cname } := by
      rw [hcp]; simp [storyPhase, hE]
    rw [hsp]
    refine ⟨by simp [docsBase], by simp [docsBase], by simp [docsBase],
      by simp [docsBase], by simp [docsBase], ?_⟩
    intro se hse
    cases hse
  | some se =>
    rw [hcp]
    refine ⟨by simp [storyPhase, hE, docsBase], by simp [storyPhase, hE, docsBase],
      by simp [storyPhase, hE, docsBase], by simp [storyPhase, hE, docsBase],
      by simp [storyPhase, hE, docsBase], ?_⟩
    intro se2 hse2
    obtain rfl : se = se2 := by injection hse2
    refine ⟨by simp [storyPhase, hE, docsBase], by simp [storyPhase, hE, docsBase],
      by simp [storyPhase, hE, docsBase]⟩

/-- C3: a story file with zero named variants yields an empty stories
mapping and no usage examples, as a successful result; the story example
extractor is modelled from the spec (`specExtractStoryExamples`). -/
theorem C3_zero_variants (P : Parsers) (fileSys : FileSys)
    (projectDir framework storyId ip : String)
    (entries : List (String × StoryIndexEntry)) (entry : StoryIndexEntry)
    (storyFiles : List (String × StoryFileSrc)) (sf : StoryFileSrc)
    (hlook : lookupStr entries storyId = some entry)
    (hip : entry.importPath = some ip)
    (hne : ip ≠ "")
    (hmdx : strEndsWith ip ".mdx" = false)
    (hfile : ∃ content, lookupStr fileSys (storyFilePathFor projectDir ip) = some content)
    (hP : P.extractStoryExamples = specExtractStoryExamples storyFiles)
    (hsf : lookupStr storyFiles (storyFilePathFor projectDir ip) = some sf)
    (hzero : sf.variants = []) :
    ∃ d, getStoryDocs P fileSys projectDir framework (Except.ok (some entries)) storyId
        = ToolResult.ok d ∧
      d.storyExamples = some [] ∧
      (d.usageExamples = none ∨ d.usageExamples = some []) := by
  obtain ⟨content, hfile⟩ := hfile
  have hE : P.extractStoryExamples (storyFilePathFor projectDir ip)
      = some { imports := sf.imports, meta := sf.meta, stories := [] } := by
    rw [hP]
    simp [specExtractStoryExamples, hsf, hzero]
  have hres : getStoryDocs P fileSys projectDir framework (Except.ok (some entries)) storyId
      = ToolResult.ok (storyPhase P framework (storyFilePathFor projectDir ip)
          (componentPhase P fileSys (storyFilePathFor projectDir ip) content
            (docsBase storyId entry framework))) := by
    simp [getStoryDocs, getStoryDocsBody, catchExcept, hlook, hip, hne, hmdx, hfile]
  refine ⟨_, hres, ?_⟩
  have husage : (componentPhase P fileSys (storyFilePathFor projectDir ip) content
      (docsBase storyId entry framework)).usageExamples = none := by
    rw [componentPhase_usage]
    simp [docsBase]
  cases hsel : (componentPhase P fileSys (storyFilePathFor projectDir ip) content
      (docsBase storyId entry framework)).selector with
  | none =>
    constructor
    · simp [storyPhase, hE, hsel]
    · left
      simp [storyPhase, hE, hsel, husage]
  | some s =>
    by_cases h0 : s = ""
    · constructor
      · simp [storyPhase, hE, hsel, h0]
      · left
        simp [storyPhase, hE, hsel, h0, husage]
    · constructor
      · simp [storyPhase, hE, hsel, h0]
      · right
        simp [storyPhase, hE, hsel, h0]

/-- C9: for every story whose import path ends with `.mdx`, `getStoryDocs`
skips the entire component and story extraction pipeline (no component,
selector, template, properties, story examples, usage examples, imports or
meta code are produced) and, when the file exists, returns its raw contents
in `mdxContent`. -/
theorem C9_mdx_raw (P : Parsers) (fileSys : FileSys)
    (projectDir framework storyId ip content : String)
    (entries : List (String × StoryIndexEntry)) (entry : StoryIndexEntry)
    (hlook : lookupStr entries storyId = some entry)
    (hip : entry.importPath = some ip)
    (hmdx : strEndsWith ip ".mdx" = true)
    (hfile : lookupStr fileSys (storyFilePathFor projectDir ip) = some content) :
    ∃ d, getStoryDocs P fileSys projectDir framework (Except.ok (some entries)) storyId
        = ToolResult.ok d ∧
      d.mdxContent = some content ∧
      d.component = none ∧ d.selector = none ∧ d.template = none ∧
      d.componentCode = none ∧ d.properties = none ∧ d.componentDescription = none ∧
      d.imports = none ∧ d.metaCode = none ∧ d.storyExamples = none ∧
      d.usageExamples = none := by
  have hne : ¬ ip = "" := by
    intro h
    rw [h] at hmdx
    exact absurd hmdx (by decide)
  refine ⟨{ docsBase storyId entry framework with mdxContent := some content }, ?_, ?_⟩
  · simp [getStoryDocs, getStoryDocsBody, catchExcept, hlook, hip, hne, hmdx, hfile]
  · refine ⟨by simp [docsBase], by simp [docsBase], by simp [docsBase], by simp [docsBase],
      by simp [docsBase], by simp [docsBase], by simp [docsBase], by simp [docsBase],
      by simp [docsBase], by simp [docsBase], by simp [docsBase]⟩

/-- C4: usage examples are generated only when the component-level
extraction yielded a (truthy) selector and the story-level extraction
succeeded; when both hold, exactly one usage example is produced per story
variant, keyed by the variant's name. A selector can only be present when
`extractComponentDocs` succeeded on the probed file. -/
theorem C4_usage_generation (P : Parsers) (fileSys : FileSys)
    (framework sfp content : String) (d : DocsResult)
    (h0 : d.usageExamples = none) :
    ((storyPhase P framework sfp d).usageExamples ≠ none →
      (∃ s, d.selector = some s ∧ s ≠ "") ∧
      ∃ se, P.extractStoryExamples sfp = some se) ∧
    (∀ s se, d.selector = some s → s ≠ "" → P.extractStoryExamples sfp = some se →
      (storyPhase P framework sfp d).usageExamples
        = some (se.stories.map (fun v => (v.1, P.generateUsageExample s v.2.args v.1 framework))) ∧
      (se.stories.map (fun v => (v.1, P.generateUsageExample s v.2.args v.1 framework))).map Prod.fst
        = se.stories.map Prod.fst) ∧
    (d.selector = none →
      (componentPhase P fileSys sfp content d).selector = none ∨
      ∃ fullPath cd, P.extractComponentDocs fullPath = some cd ∧
        (componentPhase P fileSys sfp content d).selector = cd.selector) := by
  refine ⟨?_, ?_, ?_⟩
  · intro hne
    cases hE : P.extractStoryExamples sfp with
    | none =>
      exact absurd (by simp [storyPhase, hE, h0]) hne
    | some se =>
      cases hsel : d.selector with
      | none => exact absurd (by simp [storyPhase, hE, hsel, h0]) hne
      | some s =>
        by_cases hs0 : s = ""
        · exact absurd (by simp [storyPhase, hE, hsel, hs0, h0]) hne
        · exact ⟨⟨s, rfl, hs0⟩, se, rfl⟩
  · intro s se hsel hs0 hE
    constructor
    · simp [storyPhase, hE, hsel, hs0]
    · simp [List.map_map]
  · intro hsel
    cases hm : matchComponentName content with
    | none => left; simp [componentPhase, hm, hsel]
    | some cname =>
      cases hs : matchImportSpec cname content with
      | none => left; simp [componentPhase, hm, hs, hsel]
      | some spec =>
        cases hp : probeComponentFile fileSys (pathResolve (dirname sfp) spec) with
        | none => left; simp [componentPhase, hm, hs, hp, hsel]
        | some fullPath =>
          cases he : P.extractComponentDocs fullPath with
          | none => left; simp [componentPhase, hm, hs, hp, he, hsel]
          | some cd =>
            right
            exact ⟨fullPath, cd, he, by simp [componentPhase, hm, hs, hp, he, applyComponentDocs]⟩

/-- C10: every tool handler (`listStories`, `getStory`, `getStoryDocs`,
`getStoriesByKind`) always returns a success-flagged result and never
propagates an exception: an error raised inside a handler body (modelled by
a failing fetch) is caught and converted into an error result carrying the
thrown message. -/
theorem C10_handlers_catch (P : Parsers) (fileSys : FileSys)
    (projectDir framework : String) (fetched : FetchResult)
    (storyId kind : String) (kindArg : Option String) :
    (∀ m, fetched = Except.error m →
      listStories fetched kindArg = ToolResult.err m ∧
      getStory P projectDir fetched storyId = ToolResult.err m ∧
      getStoryDocs P fileSys projectDir framework fetched storyId = ToolResult.err m ∧
      getStoriesByKind fetched kind = ToolResult.err m) ∧
    ((∃ v, listStories fetched kindArg = ToolResult.ok v) ∨
      (∃ m, listStories fetched kindArg = ToolResult.err m)) ∧
    ((∃ v, getStory P projectDir fetched storyId = ToolResult.ok v) ∨
      (∃ m, getStory P projectDir fetched storyId = ToolResult.err m)) ∧
    ((∃ v, getStoryDocs P fileSys projectDir framework fetched storyId = ToolResult.ok v) ∨
      (∃ m, getStoryDocs P fileSys projectDir framework fetched storyId = ToolResult.err m)) ∧
    ((∃ v, getStoriesByKind fetched kind = ToolResult.ok v) ∨
      (∃ m, getStoriesByKind fetched kind = ToolResult.err m)) := by
  refine ⟨?_, ?_, ?_, ?_, ?_⟩
  · rintro m rfl
    refine ⟨?_, ?_, ?_, ?_⟩ <;>
      simp [listStories, listStoriesBody, getStory, getStoryBody, getStoryDocs,
        getStoryDocsBody, getStoriesByKind, getStoriesByKindBody, catchExcept]
  · cases h : listStories fetched kindArg with
    | ok v => exact Or.inl ⟨v, rfl⟩
    | err m => exact Or.inr ⟨m, rfl⟩
  · cases h : getStory P projectDir fetched storyId with
    | ok v => exact Or.inl ⟨v, rfl⟩
    | err m => exact Or.inr ⟨m, rfl⟩
  · cases h : getStoryDocs P fileSys projectDir framework fetched storyId with
    | ok v => exact Or.inl ⟨v, rfl⟩
    | err m => exact Or.inr ⟨m, rfl⟩
  · cases h : getStoriesByKind fetched kind with
    | ok v => exact Or.inl ⟨v, rfl⟩
    | err m => exact Or.inr ⟨m, rfl⟩

/-! ## Witnesses for the pipeline claims -/

theorem C2_component_unresolved_witness :
    ∃ d, getStoryDocs sampleParsers sampleFsNoComp "/proj" "angular"
        (Except.ok (some sampleEntries)) "example-button--primary" = ToolResult.ok d ∧
      d.selector = none ∧ d.template = none ∧ d.componentCode = none ∧
      d.properties = none ∧ d.componentDescription = none ∧
      ∀ se, sampleParsers.extractStoryExamples
          (storyFilePathFor "/proj" "./src/button.stories.ts") = some se →
        d.imports = some se.imports ∧ d.metaCode = se.meta ∧
        d.storyExamples = some se.stories :=
  C2_component_unresolved sampleParsers sampleFsNoComp "/proj" "angular"
    "example-button--primary" "./src/button.stories.ts" sampleStoryContent "Button" "./button"
    sampleEntries sampleEntry (by decide) (by decide) (by decide) (by decide)
    (by decide) (by decide) (by decide) (by decide)

def sampleEmptyStoryFile : StoryFileSrc := { imports := [], variants := [] }

def sampleStoryFiles : List (String × StoryFileSrc) :=
  [("/proj/src/empty.stories.ts", sampleEmptyStoryFile)]

def sampleEntryEmpty : StoryIndexEntry :=
  { id := "example-empty--docs", name := "docs", title := "Example/Empty",
    importPath := some "./src/empty.stories.ts", type := "story" }

def sampleEntriesEmpty : List (String × StoryIndexEntry) :=
  [("example-empty--docs", sampleEntryEmpty)]

def sampleFsEmptyStories : FileSys := [("/proj/src/empty.stories.ts", "export default x")]

def sampleParsersSpecSE : Parsers :=
  { sampleParsers with extractStoryExamples := specExtractStoryExamples sampleStoryFiles }

theorem C3_zero_variants_witness :
    ∃ d, getStoryDocs sampleParsersSpecSE sampleFsEmptyStories "/proj" "angular"
        (Except.ok (some sampleEntriesEmpty)) "example-empty--docs" = ToolResult.ok d ∧
      d.storyExamples = some [] ∧
      (d.usageExamples = none ∨ d.usageExamples = some []) :=
  C3_zero_variants sampleParsersSpecSE sampleFsEmptyStories "/proj" "angular"
    "example-empty--docs" "./src/empty.stories.ts" sampleEntriesEmpty sampleEntryEmpty
    sampleStoryFiles sampleEmptyStoryFile (by decide) (by decide) (by decide) (by decide)
    ⟨"export default x", by decide⟩ rfl (by decide) rfl

def sampleEntryMdx : StoryIndexEntry :=
  { id := "example-intro--docs", name := "docs", title := "Example/Intro",
    importPath := some "./docs/intro.mdx", type := "docs" }

def sampleEntriesMdx : List (String × StoryIndexEntry) :=
  [("example-intro--docs", sampleEntryMdx)]

def sampleFsMdx : FileSys := [("/proj/docs/intro.mdx", "mdx body")]

theorem C9_mdx_raw_witness :
    ∃ d, getStoryDocs sampleParsers sampleFsMdx "/proj" "angular"
        (Except.ok (some sampleEntriesMdx)) "example-intro--docs" = ToolResult.ok d ∧
      d.mdxContent = some "mdx body" ∧
      d.component = none ∧ d.selector = none ∧ d.template = none ∧
      d.componentCode = none ∧ d.properties = none ∧ d.componentDescription = none ∧
      d.imports = none ∧ d.metaCode = none ∧ d.storyExamples = none ∧
      d.usageExamples = none :=
  C9_mdx_raw sampleParsers sampleFsMdx "/proj" "angular" "example-intro--docs"
    "./docs/intro.mdx" "mdx body" sampleEntriesMdx sampleEntryMdx
    (by decide) (by decide) (by decide) (by decide)

/-- A docs object whose component phase already succeeded. -/
def sampleDocsWithSelector : DocsResult :=
  applyComponentDocs (docsBase "example-button--primary" sampleEntry "angular") sampleComponentDoc

theorem C4_usage_generation_witness :
    ((storyPhase sampleParsers "angular" "/proj/src/button.stories.ts"
        sampleDocsWithSelector).usageExamples ≠ none →
      (∃ s, sampleDocsWithSelector.selector = some s ∧ s ≠ "") ∧
      ∃ se, sampleParsers.extractStoryExamples "/proj/src/button.stories.ts" = some se) ∧
    (∀ s se, sampleDocsWithSelector.selector = some s → s ≠ "" →
      sampleParsers.extractStoryExamples "/proj/src/button.stories.ts" = some se →
      (storyPhase sampleParsers "angular" "/proj/src/button.stories.ts"
          sampleDocsWithSelector).usageExamples
        = some (se.stories.map
            (fun v => (v.1, sampleParsers.generateUsageExample s v.2.args v.1 "angular"))) ∧
      (se.stories.map
          (fun v => (v.1, sampleParsers.generateUsageExample s v.2.args v.1 "angular"))).map Prod.fst
        = se.stories.map Prod.fst) ∧
    (sampleDocsWithSelector.selector = none →
      (componentPhase sampleParsers sampleFsNoComp "/proj/src/button.stories.ts"
          sampleStoryContent sampleDocsWithSelector).selector = none ∨
      ∃ fullPath cd, sampleParsers.extractComponentDocs fullPath = some cd ∧
        (componentPhase sampleParsers sampleFsNoComp "/proj/src/button.stories.ts"
            sampleStoryContent sampleDocsWithSelector).selector = cd.selector) :=
  C4_usage_generation sampleParsers sampleFsNoComp "angular" "/proj/src/button.stories.ts"
    sampleStoryContent sampleDocsWithSelector (by decide)

theorem C10_handlers_catch_witness :
    (∀ m, (Except.error "network failure" : FetchResult) = Except.error m →
      listStories (Except.error "network failure") none = ToolResult.err m ∧
      getStory sampleParsers "/proj" (Except.error "network failure") "sid" = ToolResult.err m ∧
      getStoryDocs sampleParsers sampleFsNoComp "/proj" "angular"
        (Except.error "network failure") "sid" = ToolResult.err m ∧
      getStoriesByKind (Except.error "network failure") "Example/Button" = ToolResult.err m) ∧
    ((∃ v, listStories (Except.error "network failure") none = ToolResult.ok v) ∨
      (∃ m, listStories (Except.error "network failure") none = ToolResult.err m)) ∧
    ((∃ v, getStory sampleParsers "/proj" (Except.error "network failure") "sid" = ToolResult.ok v) ∨
      (∃ m, getStory sampleParsers "/proj" (Except.error "network failure") "sid" = ToolResult.err m)) ∧
    ((∃ v, getStoryDocs sampleParsers sampleFsNoComp "/proj" "angular"
        (Except.error "network failure") "sid" = ToolResult.ok v) ∨
      (∃ m, getStoryDocs sampleParsers sampleFsNoComp "/proj" "angular"
        (Except.error "network failure") "sid" = ToolResult.err m)) ∧
    ((∃ v, getStoriesByKind (Except.error "network failure") "Example/Button" = ToolResult.ok v) ∨
      (∃ m, getStoriesByKind (Except.error "network failure") "Example/Button" = ToolResult.err m)) :=
  C10_handlers_catch sampleParsers sampleFsNoComp "/proj" "angular"
    (Except.error "network failure") "sid" "Example/Button" none

end StorybookMcp
